import Mathlib

/-!
# Verification of the pg.mayflower migration engine

A shallow embedding, in Lean 4, of `src/lib/PgMayflower.js`: the content
fingerprint (`getHash` over MD5 of CRLF-normalized UTF-8 text), the script
loader (`getAllScripts`), the migration engine (`migrate`) and the batch
runner (`migrateAll`).  The database connection is modelled as an explicit
state (the bookkeeping table's rows plus a log of executed migration SQL),
each `db.query_` call site is recorded as a structured `DbOp` in a trace,
and `BEGIN` / `COMMIT` / `ROLLBACK` are modelled by snapshot semantics.
Environment inputs (wall clock, script duration, whether a SQL statement
fails) are passed in explicitly.
-/

set_option maxRecDepth 40000

namespace Mayflower

/-! ## 32-bit arithmetic helpers (machine words as `Nat` mod 2^32) -/

def w32 : Nat := 4294967296

def andW (x y : Nat) : Nat := x &&& y

def orW (x y : Nat) : Nat := x ||| y

def xorW (x y : Nat) : Nat := x ^^^ y

/-- Bitwise complement of a 32-bit word (valid for `x < 2^32`). -/
def notW (x : Nat) : Nat := 4294967295 - x % w32

def addW (x y : Nat) : Nat := (x + y) % w32

/-- Left-rotation of a 32-bit word by `n` places, in pure arithmetic. -/
def rotlW (x n : Nat) : Nat :=
  (x % w32) / 2 ^ (32 - n) + (x % 2 ^ (32 - n)) * 2 ^ n

/-! ## MD5 (RFC 1321), executable -/

/-- The 64 MD5 round constants `floor(abs(sin(i+1)) * 2^32)`. -/
def md5K : List Nat :=
  [0xd76aa478, 0xe8c7b756, 0x242070db, 0xc1bdceee, 0xf57c0faf, 0x4787c62a, 0xa8304613, 0xfd469501,
   0x698098d8, 0x8b44f7af, 0xffff5bb1, 0x895cd7be, 0x6b901122, 0xfd987193, 0xa679438e, 0x49b40821,
   0xf61e2562, 0xc040b340, 0x265e5a51, 0xe9b6c7aa, 0xd62f105d, 0x02441453, 0xd8a1e681, 0xe7d3fbc8,
   0x21e1cde6, 0xc33707d6, 0xf4d50d87, 0x455a14ed, 0xa9e3e905, 0xfcefa3f8, 0x676f02d9, 0x8d2a4c8a,
   0xfffa3942, 0x8771f681, 0x6d9d6122, 0xfde5380c, 0xa4beea44, 0x4bdecfa9, 0xf6bb4b60, 0xbebfbc70,
   0x289b7ec6, 0xeaa127fa, 0xd4ef3085, 0x04881d05, 0xd9d4d039, 0xe6db99e5, 0x1fa27cf8, 0xc4ac5665,
   0xf4292244, 0x432aff97, 0xab9423a7, 0xfc93a039, 0x655b59c3, 0x8f0ccc92, 0xffeff47d, 0x85845dd1,
   0x6fa87e4f, 0xfe2ce6e0, 0xa3014314, 0x4e0811a1, 0xf7537e82, 0xbd3af235, 0x2ad7d2bb, 0xeb86d391]

/-- The per-round left-rotation amounts. -/
def md5S : List Nat :=
  [7, 12, 17, 22, 7, 12, 17, 22, 7, 12, 17, 22, 7, 12, 17, 22,
   5,  9, 14, 20, 5,  9, 14, 20, 5,  9, 14, 20, 5,  9, 14, 20,
   4, 11, 16, 23, 4, 11, 16, 23, 4, 11, 16, 23, 4, 11, 16, 23,
   6, 10, 15, 21, 6, 10, 15, 21, 6, 10, 15, 21, 6, 10, 15, 21]

/-- One MD5 round: given the round index `i`, the 16 message words `M`
and the state `(A, B, C, D)`, produce the next state. -/
def md5Round (M : List Nat) (st : Nat × Nat × Nat × Nat) (i : Nat) :
    Nat × Nat × Nat × Nat :=
  let (A, B, C, D) := st
  let fg : Nat × Nat :=
    if i < 16 then (orW (andW B C) (andW (notW B) D), i)
    else if i < 32 then (orW (andW D B) (andW (notW D) C), (5 * i + 1) % 16)
    else if i < 48 then (xorW B (xorW C D), (3 * i + 5) % 16)
    else (xorW C (orW B (notW D)), (7 * i) % 16)
  let F := fg.1
  let g := fg.2
  let tmp := addW A (addW F (addW (md5K.getD i 0) (M.getD g 0)))
  (D, addW B (rotlW tmp (md5S.getD i 0)), B, C)

/-- Process one 64-byte block (given as 16 little-endian 32-bit words). -/
def md5Block (st : Nat × Nat × Nat × Nat) (M : List Nat) :
    Nat × Nat × Nat × Nat :=
  let (a0, b0, c0, d0) := st
  let r := (List.range 64).foldl (md5Round M) (a0, b0, c0, d0)
  (addW a0 r.1, addW b0 r.2.1, addW c0 r.2.2.1, addW d0 r.2.2.2)

/-- Four consecutive bytes, little-endian, as a 32-bit word. -/
def word32LE (bs : List Nat) : Nat :=
  bs.getD 0 0 + bs.getD 1 0 * 256 + bs.getD 2 0 * 65536 + bs.getD 3 0 * 16777216

/-- Split a byte list into little-endian 32-bit words (chunks of 4). -/
def toWords : List Nat → List Nat
  | [] => []
  | b0 :: b1 :: b2 :: b3 :: rest => word32LE [b0, b1, b2, b3] :: toWords rest
  | bs => [word32LE bs]

/-- Split a padded byte list into 64-byte blocks of 16 words, with fuel
(structural recursion so the kernel can evaluate it; each step consumes
at least one byte, so `bs.length` fuel always suffices). -/
def toBlocksF : Nat → List Nat → List (List Nat)
  | 0, _ => []
  | _, [] => []
  | fuel + 1, bs => toWords (bs.take 64) :: toBlocksF fuel (bs.drop 64)

/-- Split a padded byte list into 64-byte blocks of 16 words. -/
def toBlocks (bs : List Nat) : List (List Nat) := toBlocksF bs.length bs

/-- MD5 padding: append `0x80`, zero-pad to 56 mod 64, then the bit length
as a 64-bit little-endian integer. -/
def md5Pad (msg : List Nat) : List Nat :=
  let len := msg.length
  let zeros := (119 - len % 64) % 64
  let bitLen := len * 8
  msg ++ [0x80] ++ List.replicate zeros 0
      ++ (List.range 8).map (fun i => bitLen / 2 ^ (8 * i) % 256)

/-- The 16 digest bytes of the MD5 of a byte list. -/
def md5Bytes (msg : List Nat) : List Nat :=
  let st := (md5Pad msg |> toBlocks).foldl md5Block
    (0x67452301, 0xefcdab89, 0x98badcfe, 0x10325476)
  let le4 := fun (w : Nat) => [w % 256, w / 256 % 256, w / 65536 % 256, w / 16777216 % 256]
  le4 st.1 ++ le4 st.2.1 ++ le4 st.2.2.1 ++ le4 st.2.2.2

/-- Lowercase hex digit. -/
def hexDigit (n : Nat) : Char :=
  if n < 10 then Char.ofNat (48 + n) else Char.ofNat (87 + n)

/-- Lowercase hex rendering of a byte list, two digits per byte. -/
def hexOfBytes (bs : List Nat) : List Char :=
  bs.foldr (fun b acc => hexDigit (b / 16 % 16) :: hexDigit (b % 16) :: acc) []

/-- UTF-8 encoding of one character (the encoding Node's
`crypto.Hash.update` applies to a string by default). -/
def utf8Char (c : Char) : List Nat :=
  let n := c.toNat
  if n < 0x80 then [n]
  else if n < 0x800 then [0xC0 + n / 64, 0x80 + n % 64]
  else if n < 0x10000 then [0xE0 + n / 4096, 0x80 + n / 64 % 64, 0x80 + n % 64]
  else [0xF0 + n / 262144, 0x80 + n / 4096 % 64, 0x80 + n / 64 % 64, 0x80 + n % 64]

/-- UTF-8 bytes of a string. -/
def utf8Bytes (s : String) : List Nat :=
  s.data.foldr (fun c acc => utf8Char c ++ acc) []

/-- `getHash(sql)` from the source: the MD5 of the (UTF-8) text, as
lowercase hex, formatted into hyphen-separated groups of 8-4-4-4-12
digits (GUID shape). -/
def getHash (sql : String) : String :=
  let h := hexOfBytes (md5Bytes (utf8Bytes sql))
  String.mk (h.take 8) ++ "-" ++ String.mk ((h.drop 8).take 4) ++ "-"
    ++ String.mk ((h.drop 12).take 4) ++ "-" ++ String.mk ((h.drop 16).take 4)
    ++ "-" ++ String.mk (h.drop 20)

/-! ## String utilities: CRLF normalization, the `.sql` filename test -/

/-- Single left-to-right pass replacing every non-overlapping `"\r\n"`
occurrence by `"\n"` — the semantics of the JavaScript
`sql.replace(/\r\n/g, '\n')`. -/
def replCRLF : List Char → List Char
  | '\r' :: '\n' :: rest => '\n' :: replCRLF rest
  | c :: rest => c :: replCRLF rest
  | [] => []

def replaceCRLF (s : String) : String := String.mk (replCRLF s.data)

/-- Does the character list contain the three-character run CR CR LF?
(The only shape on which the single-pass CRLF replacement is not
idempotent.) -/
def hasCRCRLF : List Char → Bool
  | '\r' :: '\r' :: '\n' :: _ => true
  | _ :: rest => hasCRCRLF rest
  | [] => false

/-- The JavaScript `String.prototype.trim` whitespace class: WhiteSpace
(tab, VT, FF, space, NBSP, ZWNBSP, Unicode space separators) plus the
line terminators (LF, CR, LS, PS). -/
def jsWhitespace (c : Char) : Bool :=
  c == ' ' || c == '\t' || c == '\n' || c == '\r'
    || c.toNat == 0xB || c.toNat == 0xC || c.toNat == 0xA0 || c.toNat == 0xFEFF
    || c.toNat == 0x1680 || (0x2000 ≤ c.toNat && c.toNat ≤ 0x200A)
    || c.toNat == 0x202F || c.toNat == 0x205F || c.toNat == 0x3000
    || c.toNat == 0x2028 || c.toNat == 0x2029

def dropWhitespace : List Char → List Char
  | [] => []
  | c :: rest => if jsWhitespace c then dropWhitespace rest else c :: rest

/-- `sql.trim()`. -/
def jsTrim (s : String) : String :=
  String.mk ((dropWhitespace (dropWhitespace s.data).reverse).reverse)

/-- Can a JavaScript regex `.` match this character?  `.` matches
everything except the four line terminators. -/
def regexDotMatches (c : Char) : Bool :=
  c != '\n' && c != '\r' && c.toNat != 0x2028 && c.toNat != 0x2029

/-- Lexicographic comparison of character lists by code point — the
comparison JavaScript's default `Array.prototype.sort` applies to
strings. -/
def charListLe : List Char → List Char → Bool
  | [], _ => true
  | _ :: _, [] => false
  | a :: as, b :: bs =>
      decide (a.toNat < b.toNat) || (a == b && charListLe as bs)

/-- `a ≤ b` for filenames, as JavaScript's default sort compares them. -/
def strLe (a b : String) : Bool := charListLe a.data b.data

/-- The test `/.+\.sql$/.test(name)`: the name ends in the literal
`".sql"` and the character immediately before that suffix exists and is
matchable by `.` (at least one `.`-matchable character precedes the
extension). -/
def sqlExt (name : String) : Bool :=
  let l := name.data
  decide (5 ≤ l.length) && decide (l.drop (l.length - 4) = ['.', 's', 'q', 'l'])
    && regexDotMatches (l.getD (l.length - 5) '\n')

/-! ## Data model -/

/-- `SqlScript(name, sql)`: the stored `sql` is the trimmed text; the
`hash` is `getHash` of the raw text after the single-pass CRLF→LF
replacement (note: the hash input is *not* trimmed). -/
structure SqlScript where
  name : String
  sql : String
  hash : String
deriving DecidableEq

def SqlScript.make (name sql : String) : SqlScript :=
  { name := name, sql := jsTrim sql, hash := getHash (replaceCRLF sql) }

/-- `MigrationResult(name)` with its constructor defaults. -/
structure MigrationResult where
  name : String
  skipped : Bool := true
  runtime : Nat := 0
  message : String := ""
deriving DecidableEq

/-- The `options` object consumed by `migrate` / `migrateAll`.  `output`
is `none` when the caller left it `undefined` (so that the in-place
defaulting mutation in `migrateAll` is observable). -/
structure OptionsJS where
  preview : Bool := false
  force : Bool := false
  output : Option Bool := none
deriving DecidableEq

/-- Environment inputs of one `migrate` call: the wall clock used for
`execution_date`, the measured script duration in ms, and whether the
script's SQL or the ledger write fails (`none` = succeeds, `some e` =
the database raises error `e`). -/
structure Env where
  now : Nat := 0
  runtime : Nat := 0
  scriptError : Option String := none
  ledgerError : Option String := none
deriving DecidableEq, Inhabited

/-- One row of the bookkeeping table. -/
structure Row where
  hash : String
  filename : String
  execution_date : Nat
  duration : Nat
deriving DecidableEq

/-- The observable state of the target database: the bookkeeping table
(`none` while it does not exist) and the log of migration SQL whose
effects have been applied. -/
structure DbState where
  table : Option (List Row) := none
  effects : List String := []
deriving DecidableEq

/-- One `db.query_` call site of the source, as a structured operation;
`DbOp.toSql` renders each to the exact SQL text the source builds. -/
inductive DbOp where
  | infoSchemaQuery (schema table : String)
  | createTable (schemaAndTable : String)
  | selectByHash (schemaAndTable hash : String)
  | selectByFilename (schemaAndTable filename : String)
  | updateFilenameByHash (schemaAndTable filename hash : String)
  | beginTxn
  | runSql (sql : String)
  | insertMigration (schemaAndTable hash : String) (date duration : Nat) (filename : String)
  | updateMigrationByFilename (schemaAndTable hash : String) (date duration : Nat) (filename : String)
  | commit
  | rollback
deriving DecidableEq

/-- The literal SQL text and positional parameters each operation sends
through `db.query_`, exactly as concatenated in the source. -/
def DbOp.toSql : DbOp → String × List String
  | .infoSchemaQuery s t =>
      ("SELECT * FROM information_schema.tables WHERE table_schema = $1 AND table_name = $2;", [s, t])
  | .createTable st =>
      ("CREATE TABLE " ++ st ++ " (" ++ "   hash character varying(40)," ++
       "   filename character varying(260)," ++ "   execution_date timestamp with time zone," ++
       "   duration integer," ++ "   CONSTRAINT pk_migrations PRIMARY KEY (hash)," ++
       "   CONSTRAINT ux_migrations_filename UNIQUE (filename)" ++ ");", [])
  | .selectByHash st h => ("select * from " ++ st ++ " where hash = $1;", [h])
  | .selectByFilename st n => ("select * from " ++ st ++ " where filename = $1;", [n])
  | .updateFilenameByHash st n h => ("update " ++ st ++ " set filename = $1 where hash = $2;", [n, h])
  | .beginTxn => ("BEGIN", [])
  | .runSql sql => (sql, [])
  | .insertMigration st h d dur n =>
      ("insert into " ++ st ++ " (hash, execution_date, duration, filename) values ($1, $2, $3, $4);",
       [h, toString d, toString dur, n])
  | .updateMigrationByFilename st h d dur n =>
      ("update " ++ st ++ " set hash = $1, execution_date = $2, duration = $3 where filename = $4;",
       [h, toString d, toString dur, n])
  | .commit => ("COMMIT", [])
  | .rollback => ("ROLLBACK", [])

/-- A database connection: current database state, the pending
transaction's rollback snapshot (if a transaction is open), the trace of
every operation sent on the connection, and whether `end()` was called. -/
structure Conn where
  db : DbState := {}
  txnSnapshot : Option DbState := none
  trace : List DbOp := []
  closed : Bool := false
deriving DecidableEq

/-- Send an operation on the connection and apply its effect:
`BEGIN` snapshots the state, `ROLLBACK` restores it, `COMMIT` discards
it, writes update the table, plain SQL appends to the effect log. -/
def Conn.exec (c : Conn) (op : DbOp) : Conn :=
  let c := { c with trace := c.trace ++ [op] }
  match op with
  | .infoSchemaQuery _ _ => c
  | .createTable _ => { c with db := { c.db with table := some [] } }
  | .selectByHash _ _ => c
  | .selectByFilename _ _ => c
  | .updateFilenameByHash _ name hash =>
      let upd := fun (r : Row) => if r.hash == hash then { r with filename := name } else r
      { c with db := { c.db with table := c.db.table.map (List.map upd) } }
  | .beginTxn => { c with txnSnapshot := some c.db }
  | .runSql sql => { c with db := { c.db with effects := c.db.effects ++ [sql] } }
  | .insertMigration _ hash d dur name =>
      { c with db := { c.db with table := c.db.table.map (· ++ [⟨hash, name, d, dur⟩]) } }
  | .updateMigrationByFilename _ hash d dur name =>
      let upd := fun (r : Row) => if r.filename == name then (⟨hash, r.filename, d, dur⟩ : Row) else r
      { c with db := { c.db with table := c.db.table.map (List.map upd) } }
  | .commit => { c with txnSnapshot := none }
  | .rollback => { c with db := c.txnSnapshot.getD c.db, txnSnapshot := none }

/-- Record an operation that was sent but failed: it appears in the
trace, and a failed statement has no effect on the database state. -/
def Conn.note (c : Conn) (op : DbOp) : Conn :=
  { c with trace := c.trace ++ [op] }

/-- The migrator object: configured schema / table names and the
`_tableExists` memo flag. -/
structure PgMayflower where
  table : String := "migrations"
  schema : String := "public"
  tableExists : Bool := false
deriving DecidableEq

def PgMayflower.schemaAndTable (m : PgMayflower) : String := m.schema ++ "." ++ m.table

/-! ## The engine -/

/-- `createMigrationsTable(db, options)`: memoized existence check via
`information_schema`, creating the table unless in preview mode. -/
def createMigrationsTable (self : PgMayflower) (conn : Conn) (options : OptionsJS) :
    PgMayflower × Conn :=
  if self.tableExists then (self, conn)
  else
    let conn := conn.exec (DbOp.infoSchemaQuery self.schema self.table)
    if conn.db.table.isSome then ({ self with tableExists := true }, conn)
    else if options.preview then (self, conn)
    else
      let conn := conn.exec (DbOp.createTable self.schemaAndTable)
      ({ self with tableExists := true }, conn)

/-- The `try` block of `migrate`: run the script's SQL, set the runtime,
write the ledger row (insert, or update when `exists_`) when the table
exists and not in preview, then `COMMIT` (or `ROLLBACK` in preview).
Returns the connection, the result and the error thrown, if any. -/
def migrateTry (self : PgMayflower) (conn : Conn) (options : OptionsJS)
    (script : SqlScript) (env : Env) (exists_ : Bool) (res : MigrationResult) :
    Conn × MigrationResult × Option String :=
  match env.scriptError with
  | some e => (conn.note (DbOp.runSql script.sql), res, some e)
  | none =>
    let conn := conn.exec (DbOp.runSql script.sql)
    let res := { res with runtime := env.runtime }
    if self.tableExists && !options.preview then
      let writeOp :=
        if exists_ then
          DbOp.updateMigrationByFilename self.schemaAndTable script.hash env.now res.runtime script.name
        else
          DbOp.insertMigration self.schemaAndTable script.hash env.now res.runtime script.name
      match env.ledgerError with
      | some e => (conn.note writeOp, res, some e)
      | none =>
        let conn := (conn.exec writeOp).exec (if options.preview then DbOp.rollback else DbOp.commit)
        (conn, { res with skipped := false, message := "Successfully migrated " ++ script.name }, none)
    else
      let conn := conn.exec (if options.preview then DbOp.rollback else DbOp.commit)
      (conn, { res with skipped := false, message := "Successfully migrated " ++ script.name }, none)

/-- `migrate` either returns a `MigrationResult` or throws. -/
inductive MigrateReturn where
  | ok (r : MigrationResult)
  | err (msg : String)
deriving DecidableEq

/-- `migrate(db, options, script)`, mirroring the source: ensure the
table, look up by hash (skip / rename-update when found), look up by
filename (conflict error without `force`), then apply inside a
transaction via `migrateTry`, rolling back and rethrowing on failure. -/
def migrate (self : PgMayflower) (conn : Conn) (options : OptionsJS)
    (script : SqlScript) (env : Env) : PgMayflower × Conn × MigrateReturn :=
  let res : MigrationResult := { name := script.name }
  let s := createMigrationsTable self conn options
  let self := s.1
  let conn := s.2
  -- check for previous migration by hash (pretending the table is empty
  -- when it does not exist in preview mode)
  let hashLookup : List Row × Conn :=
    if !self.tableExists && options.preview then ([], conn)
    else
      let conn := conn.exec (DbOp.selectByHash self.schemaAndTable script.hash)
      ((conn.db.table.getD []).filter (fun r => r.hash == script.hash), conn)
  let conn := hashLookup.2
  match hashLookup.1 with
  | r :: _ =>
    -- migration has already been applied
    if r.filename != script.name then
      let res := { res with message := "Filename has changed in the database; updating " ++ script.name }
      if !options.preview then
        (self, conn.exec (DbOp.updateFilenameByHash self.schemaAndTable script.name script.hash),
         MigrateReturn.ok res)
      else (self, conn, MigrateReturn.ok res)
    else (self, conn, MigrateReturn.ok res)
  | [] =>
    -- check for previous migration by filename
    let nameLookup : List Row × Conn :=
      if !self.tableExists && options.preview then ([], conn)
      else
        let conn := conn.exec (DbOp.selectByFilename self.schemaAndTable script.name)
        ((conn.db.table.getD []).filter (fun r => r.filename == script.name), conn)
    let conn := nameLookup.2
    let exists_ := !nameLookup.1.isEmpty
    if exists_ && !options.force then
      (self, conn, MigrateReturn.err ("Failed to migrate: " ++ script.name ++ " (Hash: "
        ++ script.hash ++ ") - the file was already migrated in the past, to force migration use options.force"))
    else
      -- begin migration transaction
      let conn := conn.exec DbOp.beginTxn
      match migrateTry self conn options script env exists_ res with
      | (conn', res', none) => (self, conn', MigrateReturn.ok res')
      | (conn', _, some e) => (self, conn'.exec DbOp.rollback, MigrateReturn.err e)

/-! ## The script loader -/

/-- The filesystem as a listing of (filename, raw content) pairs. -/
def readDir (fs : List (String × String)) : List String := fs.map (·.1)

def readFile (fs : List (String × String)) (name : String) : String :=
  ((fs.find? (fun e => e.1 == name)).map (·.2)).getD ""

def getScript (fs : List (String × String)) (name : String) : SqlScript :=
  SqlScript.make name (readFile fs name)

/-- `getAllScripts()`: filter the directory listing by the `.sql` regex,
sort the names (JavaScript default sort = plain lexicographic string
comparison), load each script, and keep only those whose trimmed
content is nonempty. -/
def getAllScripts (fs : List (String × String)) : List SqlScript :=
  let names := (readDir fs).filter sqlExt
  let sorted := List.insertionSort (fun a b => strLe a b = true) names
  (sorted.map (getScript fs)).filter (fun s => s.sql != "")

/-! ## The batch runner -/

/-- The `for` loop of `migrateAll`: run each script in order, collecting
results, stopping at the first thrown error.  The `i`-th script uses the
`i`-th environment. -/
def runScripts (self : PgMayflower) (conn : Conn) (options : OptionsJS) :
    List SqlScript → List Env → PgMayflower × Conn × List MigrationResult × Option String
  | [], _ => (self, conn, [], none)
  | script :: rest, envs =>
    match migrate self conn options script (envs.headD {}) with
    | (self', conn', MigrateReturn.ok r) =>
      let t := runScripts self' conn' options rest envs.tail
      (t.1, t.2.1, r :: t.2.2.1, t.2.2.2)
    | (self', conn', MigrateReturn.err e) => (self', conn', [], some e)

inductive BatchResult where
  | ok (results : List MigrationResult) (logs : List String)
  | err (msg : String)
deriving DecidableEq

structure BatchOutcome where
  self : PgMayflower
  conn : Conn
  callerOptions : Option OptionsJS
  outcome : BatchResult
deriving DecidableEq

/-- The in-place defaulting `migrateAll` performs on its `options`
argument: a missing object becomes `{}` (all flags undefined, then
`output` set to `true`); on a present object, `output = true` is
assigned when it was undefined. -/
def defaultedOptions : Option OptionsJS → OptionsJS
  | none => { preview := false, force := false, output := some true }
  | some o => if o.output = none then { o with output := some true } else o

/-- `migrateAll(options)`: default the options (mutating the caller's
object), load all scripts, run them in order on one connection, always
`end()` the connection, rethrow any error, otherwise log the non-empty
messages and the skipped count (when `output` is truthy) and return the
results.  `callerOptions` in the outcome is the caller's options object
after the call. -/
def migrateAll (self : PgMayflower) (fs : List (String × String)) (conn : Conn)
    (callerOptions : Option OptionsJS) (envs : List Env) : BatchOutcome :=
  let options := defaultedOptions callerOptions
  let callerAfter := callerOptions.map (fun o => defaultedOptions (some o))
  let scripts := getAllScripts fs
  let t := runScripts self conn options scripts envs
  let connEnd := { t.2.1 with closed := true }
  let outcome :=
    match t.2.2.2 with
    | some e => BatchResult.err e
    | none =>
      let results := t.2.2.1
      let skipped := (results.filter (·.skipped)).length
      let outputOn := options.output.getD false
      let logs :=
        (if outputOn then (results.filter (fun r => r.message != "")).map (·.message) else [])
          ++ (if outputOn && skipped > 0 then
                [toString skipped ++ " previously applied migrations were skipped."] else [])
      BatchResult.ok results logs
  { self := t.1, conn := connEnd, callerOptions := callerAfter, outcome := outcome }

/-! ## Lemmas about the CRLF replacement -/

theorem replCRLF_cons_ne (c : Char) (rest : List Char)
    (h : c ≠ '\r' ∨ ∀ t : List Char, rest ≠ '\n' :: t) :
    replCRLF (c :: rest) = c :: replCRLF rest := by
  rw [replCRLF.eq_def]
  split
  · rename_i rest' heq
    injection heq with h1 h2
    subst h1
    rcases h with hc | hr
    · exact absurd rfl hc
    · exact absurd h2 (hr rest')
  · rename_i c' rest' hg heq
    injection heq with h1 h2
    subst h1; subst h2
    rfl
  · rename_i hg heq
    exact absurd heq (List.cons_ne_nil c rest)

theorem hasCRCRLF_cons_false {c : Char} {rest : List Char}
    (h : hasCRCRLF (c :: rest) = false) : hasCRCRLF rest = false := by
  rw [hasCRCRLF.eq_def] at h
  split at h
  · exact absurd h (by simp)
  · rename_i c' rest' hg heq
    injection heq with h1 h2
    rw [h2]
    exact h
  · rename_i hg heq
    exact absurd heq (List.cons_ne_nil c rest)

/-- On input with no CR CR LF run, the single-pass CRLF→LF replacement is
idempotent. -/
theorem replCRLF_idem (l : List Char) (h : hasCRCRLF l = false) :
    replCRLF (replCRLF l) = replCRLF l := by
  induction l using replCRLF.induct with
  | case1 rest ih =>
    have hr : hasCRCRLF rest = false := hasCRCRLF_cons_false (hasCRCRLF_cons_false h)
    rw [show replCRLF ('\r' :: '\n' :: rest) = '\n' :: replCRLF rest from rfl]
    rw [replCRLF_cons_ne '\n' (replCRLF rest) (Or.inl (by decide))]
    rw [ih hr]
  | case2 c rest hne ih =>
    have hr : hasCRCRLF rest = false := hasCRCRLF_cons_false h
    have hstep : replCRLF (c :: rest) = c :: replCRLF rest := by
      refine replCRLF_cons_ne c rest ?_
      by_cases hc : c = '\r'
      · exact Or.inr (fun t ht => hne t hc ht)
      · exact Or.inl hc
    rw [hstep]
    by_cases hc : c = '\r'
    · subst hc
      -- rest starts neither with '\n' (else the head pattern would have
      -- matched) nor with '\r' :: '\n' (else the input would contain CR CR LF)
      have hnot : ∀ t : List Char, replCRLF rest ≠ '\n' :: t := by
        intro t ht
        cases rest with
        | nil => simp [replCRLF] at ht
        | cons d r =>
          by_cases hd : d = '\n'
          · exact hne r rfl (by rw [hd])
          · by_cases hdr : d = '\r'
            · subst hdr
              cases r with
              | nil =>
                rw [replCRLF_cons_ne '\r' [] (Or.inr (by intro t' ht'; cases ht'))] at ht
                simp [replCRLF] at ht
              | cons e r' =>
                by_cases he : e = '\n'
                · subst he
                  exact absurd h (by rw [show hasCRCRLF ('\r' :: '\r' :: '\n' :: r') = true from rfl]; simp)
                · rw [replCRLF_cons_ne '\r' (e :: r')
                        (Or.inr (by intro t' ht'; injection ht' with he' _; exact he he'))] at ht
                  injection ht with hh _
                  exact absurd hh (by decide)
            · rw [replCRLF_cons_ne d r (Or.inl hdr)] at ht
              injection ht with hh _
              exact hd hh
      rw [replCRLF_cons_ne '\r' (replCRLF rest) (Or.inr hnot)]
      rw [ih hr]
    · rw [replCRLF_cons_ne c (replCRLF rest) (Or.inl hc)]
      rw [ih hr]
  | case3 => rfl

/-! ## C5: what the fingerprint is a function of -/

/-- C5 (counterexample): the claim "any two scripts whose content
(trimmed, CRLF-normalized) is identical have the same fingerprint" is
false: the scripts built from `"x"` and `" x"` have identical trimmed
content (and contain no CRLF at all), yet their fingerprints differ,
because the source hashes the raw text before trimming. -/
theorem fingerprint_not_function_of_trimmed_content :
    (SqlScript.make "a.sql" "x").sql = (SqlScript.make "b.sql" " x").sql ∧
    replaceCRLF ((SqlScript.make "a.sql" "x").sql) = replaceCRLF ((SqlScript.make "b.sql" " x").sql) ∧
    (SqlScript.make "a.sql" "x").hash ≠ (SqlScript.make "b.sql" " x").hash := by
  refine ⟨by decide, by decide, by decide⟩

/-- C5 (amended): the fingerprint is a pure function of the
CRLF→LF-normalized *raw* script text (not of the trimmed content): any
two scripts whose raw text agrees after CRLF normalization — even under
different filenames — share a fingerprint. -/
theorem fingerprint_function_of_normalized_raw (n₁ n₂ c₁ c₂ : String)
    (h : replaceCRLF c₁ = replaceCRLF c₂) :
    (SqlScript.make n₁ c₁).hash = (SqlScript.make n₂ c₂).hash := by
  simp only [SqlScript.make, h]

theorem fingerprint_function_of_normalized_raw_witness :
    (SqlScript.make "a.sql" "x\r\ny").hash = (SqlScript.make "b.sql" "x\ny").hash :=
  fingerprint_function_of_normalized_raw "a.sql" "b.sql" "x\r\ny" "x\ny" (by decide)

/-! ## C6: CRLF-invariance of the fingerprint -/

/-- C6 (counterexample): fingerprint invariance under CRLF→LF
replacement fails for content containing CR CR LF: the single-pass
replacement is not idempotent there (`"\r\r\n"` normalizes to `"\r\n"`,
which normalizes again to `"\n"`), so the fingerprints differ. -/
theorem fingerprint_not_CRLF_invariant :
    (SqlScript.make "a.sql" "\r\r\n").hash
      ≠ (SqlScript.make "a.sql" (replaceCRLF "\r\r\n")).hash := by
  decide

/-- C6 (amended): for content containing no CR CR LF run (in particular
all content whose line breaks are ordinary LF or CRLF), the fingerprint
is invariant under CRLF→LF replacement. -/
theorem fingerprint_CRLF_invariant (n : String) (c : String)
    (h : hasCRCRLF c.data = false) :
    (SqlScript.make n c).hash = (SqlScript.make n (replaceCRLF c)).hash := by
  simp only [SqlScript.make, replaceCRLF]
  rw [replCRLF_idem c.data h]

theorem fingerprint_CRLF_invariant_witness :
    hasCRCRLF ("a\r\nb".data) = false ∧
    (SqlScript.make "s.sql" "a\r\nb").hash = (SqlScript.make "s.sql" (replaceCRLF "a\r\nb")).hash :=
  ⟨by decide, fingerprint_CRLF_invariant "s.sql" "a\r\nb" (by decide)⟩

/-! ## C9: mutation of the run configuration -/

/-- C9 (counterexample): the options object is *not* left unmutated by
`migrateAll`: when the caller's object has `output` undefined,
`migrateAll` assigns `output = true` on it, so after the call the
caller's object differs from what was passed in. -/
theorem migrateAll_mutates_output :
    (migrateAll {} [] {} (some { preview := false, force := false, output := none }) []).callerOptions
      ≠ some { preview := false, force := false, output := none } := by
  decide

/-- C9 (amended): `migrate` never mutates the options, and `migrateAll`
never mutates `preview` or `force`; the only mutation is that
`migrateAll` assigns `output := true` on the caller's options object
when `output` was undefined (a present `output` value is kept, and a
caller that passed no object is unaffected). -/
theorem migrateAll_mutates_only_undefined_output
    (self : PgMayflower) (fs : List (String × String)) (conn : Conn)
    (o : OptionsJS) (envs : List Env) :
    (migrateAll self fs conn (some o) envs).callerOptions
        = some { preview := o.preview, force := o.force, output := some (o.output.getD true) } ∧
    (migrateAll self fs conn none envs).callerOptions = none := by
  constructor
  · show (Option.map (fun o => defaultedOptions (some o)) (some o)) = _
    cases ho : o.output with
    | none => simp [defaultedOptions, ho]
    | some b =>
      simp [defaultedOptions, ho]
      rw [← ho]
  · rfl

/-! ## C7: the script loader -/

theorem charListLe_cons {a b : Char} {as bs : List Char} :
    charListLe (a :: as) (b :: bs) = true ↔
      a.toNat < b.toNat ∨ (a = b ∧ charListLe as bs = true) := by
  simp [charListLe, Bool.or_eq_true, Bool.and_eq_true, decide_eq_true_iff, beq_iff_eq]

theorem char_toNat_inj {a b : Char} (h : a.toNat = b.toNat) : a = b := by
  have := Char.ofNat_toNat a
  rw [h, Char.ofNat_toNat b] at this
  exact this.symm

theorem charListLe_total (a b : List Char) :
    charListLe a b = true ∨ charListLe b a = true := by
  induction a generalizing b with
  | nil => exact Or.inl rfl
  | cons x xs ih =>
    cases b with
    | nil => exact Or.inr rfl
    | cons y ys =>
      rcases Nat.lt_trichotomy x.toNat y.toNat with h | h | h
      · exact Or.inl (charListLe_cons.mpr (Or.inl h))
      · have hxy : x = y := char_toNat_inj h
        rcases ih ys with h' | h'
        · exact Or.inl (charListLe_cons.mpr (Or.inr ⟨hxy, h'⟩))
        · exact Or.inr (charListLe_cons.mpr (Or.inr ⟨hxy.symm, h'⟩))
      · exact Or.inr (charListLe_cons.mpr (Or.inl h))

theorem charListLe_trans {a b c : List Char} (hab : charListLe a b = true)
    (hbc : charListLe b c = true) : charListLe a c = true := by
  induction a generalizing b c with
  | nil => rfl
  | cons x xs ih =>
    cases b with
    | nil => exact absurd hab (by simp [charListLe])
    | cons y ys =>
      cases c with
      | nil => exact absurd hbc (by simp [charListLe])
      | cons z zs =>
        rcases charListLe_cons.mp hab with h1 | ⟨h1, h1'⟩ <;>
          rcases charListLe_cons.mp hbc with h2 | ⟨h2, h2'⟩
        · exact charListLe_cons.mpr (Or.inl (Nat.lt_trans h1 h2))
        · exact charListLe_cons.mpr (Or.inl (h2 ▸ h1))
        · exact charListLe_cons.mpr (Or.inl (h1 ▸ h2))
        · exact charListLe_cons.mpr (Or.inr ⟨h1.trans h2, ih h1' h2'⟩)

instance : IsTotal String (fun a b => strLe a b = true) :=
  ⟨fun a b => charListLe_total a.data b.data⟩

instance : IsTrans String (fun a b => strLe a b = true) :=
  ⟨fun _ _ _ => charListLe_trans⟩

theorem getScript_name (fs : List (String × String)) (n : String) :
    (getScript fs n).name = n := rfl

/-- C7: `getAllScripts` returns exactly the scripts of the directory
entries matching the `.sql` pattern whose trimmed content is nonempty
(no error is raised for empty ones — the function is total), ordered by
filename ascending under plain lexicographic string comparison `strLe`;
the concrete instance shows the order is not numeric-aware ("10.sql"
sorts before "2.sql") while a non-`.sql` file and a whitespace-only
script are dropped. -/
theorem getAllScripts_spec (fs : List (String × String)) :
    List.Sorted (fun a b => strLe a b = true) ((getAllScripts fs).map (·.name)) ∧
    (∀ s : SqlScript, s ∈ getAllScripts fs ↔
      ∃ n, n ∈ readDir fs ∧ sqlExt n = true ∧ s = getScript fs n ∧ s.sql ≠ "") ∧
    (getAllScripts [("10.sql", "b"), ("2.sql", "a"), ("x.txt", "c"), ("3.sql", " ")]).map (·.name)
      = ["10.sql", "2.sql"] := by
  refine ⟨?_, ?_, by decide⟩
  · have h1 : List.Sorted (fun a b => strLe a b = true)
        (List.insertionSort (fun a b => strLe a b = true) ((readDir fs).filter sqlExt)) :=
      List.sorted_insertionSort _ _
    have h3 : ((List.insertionSort (fun a b => strLe a b = true) ((readDir fs).filter sqlExt)).map
        (getScript fs)).map (·.name)
        = List.insertionSort (fun a b => strLe a b = true) ((readDir fs).filter sqlExt) := by
      rw [List.map_map]
      exact List.map_id'' (fun n => rfl) _
    have h2 : ((getAllScripts fs).map (·.name)).Sublist
        (((List.insertionSort (fun a b => strLe a b = true) ((readDir fs).filter sqlExt)).map
          (getScript fs)).map (·.name)) :=
      List.Sublist.map _ (List.filter_sublist _)
    rw [h3] at h2
    exact List.Pairwise.sublist h2 h1
  · intro s
    simp only [getAllScripts, List.mem_filter, List.mem_map]
    constructor
    · rintro ⟨⟨n, hn, rfl⟩, hne⟩
      have hn' : n ∈ (readDir fs).filter sqlExt :=
        (List.perm_insertionSort (fun a b => strLe a b = true) _).mem_iff.mp hn
      rw [List.mem_filter] at hn'
      exact ⟨n, hn'.1, hn'.2, rfl, by simpa using hne⟩
    · rintro ⟨n, hn, hext, rfl, hne⟩
      refine ⟨⟨n, ?_, rfl⟩, by simpa using hne⟩
      exact (List.perm_insertionSort (fun a b => strLe a b = true) _).mem_iff.mpr
        (List.mem_filter.mpr ⟨hn, hext⟩)

/-! ## Unfolding lemmas for `createMigrationsTable` -/

theorem createMigrationsTable_memo (self : PgMayflower) (conn : Conn) (options : OptionsJS)
    (h : self.tableExists = true) :
    createMigrationsTable self conn options = (self, conn) := by
  simp [createMigrationsTable, h]

theorem createMigrationsTable_found (self : PgMayflower) (conn : Conn) (options : OptionsJS)
    (rows : List Row) (h : self.tableExists = false) (ht : conn.db.table = some rows) :
    createMigrationsTable self conn options =
      ({ self with tableExists := true },
       conn.note (DbOp.infoSchemaQuery self.schema self.table)) := by
  simp [createMigrationsTable, Conn.exec, Conn.note, h, ht]

theorem createMigrationsTable_absent_preview (self : PgMayflower) (conn : Conn)
    (options : OptionsJS) (h : self.tableExists = false) (ht : conn.db.table = none)
    (hp : options.preview = true) :
    createMigrationsTable self conn options =
      (self, conn.note (DbOp.infoSchemaQuery self.schema self.table)) := by
  simp [createMigrationsTable, Conn.exec, Conn.note, h, ht, hp]

theorem createMigrationsTable_absent_create (self : PgMayflower) (conn : Conn)
    (options : OptionsJS) (h : self.tableExists = false) (ht : conn.db.table = none)
    (hp : options.preview = false) :
    createMigrationsTable self conn options =
      ({ self with tableExists := true },
       { conn with db := { conn.db with table := some [] },
                   trace := conn.trace ++ [DbOp.infoSchemaQuery self.schema self.table,
                                           DbOp.createTable self.schemaAndTable] }) := by
  simp [createMigrationsTable, Conn.exec, Conn.note, h, ht, hp]

theorem schemaAndTable_markExists (self : PgMayflower) (b : Bool) :
    ({ self with tableExists := b } : PgMayflower).schemaAndTable = self.schemaAndTable := rfl

/-! ## C1: fingerprint match always skips, even under force -/

/-- C1: when the ledger holds a record with the script's fingerprint,
`migrate` returns an outcome with `skipped = true` and `runtime = 0`,
issues no `BEGIN` and no script SQL on the connection (the trace grows
only by lookups and possibly the rename update), and leaves the effect
log unchanged — for every `options`, in particular under `force`. -/
theorem migrate_skips_on_fingerprint_match
    (self : PgMayflower) (conn : Conn) (options : OptionsJS) (script : SqlScript) (env : Env)
    (rows : List Row) (htable : conn.db.table = some rows)
    (r : Row) (t : List Row)
    (hfind : rows.filter (fun r => r.hash == script.hash) = r :: t) :
    ∃ (res : MigrationResult) (ops : List DbOp),
      (migrate self conn options script env).2.2 = MigrateReturn.ok res ∧
      res.skipped = true ∧ res.runtime = 0 ∧
      (migrate self conn options script env).2.1.db.effects = conn.db.effects ∧
      (migrate self conn options script env).2.1.trace = conn.trace ++ ops ∧
      DbOp.beginTxn ∉ ops ∧ (∀ sql, DbOp.runSql sql ∉ ops) := by
  cases hTE : self.tableExists with
  | false =>
    simp only [migrate, createMigrationsTable_found self conn options rows hTE htable,
      Conn.note, Conn.exec, htable, Option.getD_some, hfind, Bool.not_true, Bool.false_and,
      Bool.false_eq_true, if_false]
    by_cases hrn : r.filename = script.name
    · refine ⟨{ name := script.name }, [DbOp.infoSchemaQuery self.schema self.table,
        DbOp.selectByHash self.schemaAndTable script.hash], ?_⟩
      simp [hrn, List.append_assoc, schemaAndTable_markExists]
    · cases hp : options.preview with
      | true =>
        refine ⟨{ name := script.name, message := "Filename has changed in the database; updating " ++ script.name },
          [DbOp.infoSchemaQuery self.schema self.table,
          DbOp.selectByHash self.schemaAndTable script.hash], ?_⟩
        simp [hrn, hp, List.append_assoc, bne, schemaAndTable_markExists]
      | false =>
        refine ⟨{ name := script.name, message := "Filename has changed in the database; updating " ++ script.name },
          [DbOp.infoSchemaQuery self.schema self.table,
          DbOp.selectByHash self.schemaAndTable script.hash,
          DbOp.updateFilenameByHash self.schemaAndTable script.name script.hash], ?_⟩
        simp [hrn, hp, List.append_assoc, bne, schemaAndTable_markExists]
  | true =>
    simp only [migrate, createMigrationsTable_memo self conn options hTE,
      Conn.note, Conn.exec, htable, Option.getD_some, hfind, hTE, Bool.not_true, Bool.false_and,
      Bool.false_eq_true, if_false]
    by_cases hrn : r.filename = script.name
    · refine ⟨{ name := script.name }, [DbOp.selectByHash self.schemaAndTable script.hash], ?_⟩
      simp [hrn, List.append_assoc, schemaAndTable_markExists]
    · cases hp : options.preview with
      | true =>
        refine ⟨{ name := script.name, message := "Filename has changed in the database; updating " ++ script.name },
          [DbOp.selectByHash self.schemaAndTable script.hash], ?_⟩
        simp [hrn, hp, List.append_assoc, bne, schemaAndTable_markExists]
      | false =>
        refine ⟨{ name := script.name, message := "Filename has changed in the database; updating " ++ script.name },
          [DbOp.selectByHash self.schemaAndTable script.hash,
          DbOp.updateFilenameByHash self.schemaAndTable script.name script.hash], ?_⟩
        simp [hrn, hp, List.append_assoc, bne, schemaAndTable_markExists]

/-- Concrete fixtures for witnesses. -/
def sampleScript : SqlScript := SqlScript.make "001_a.sql" "select 1;"

def sampleRow : Row :=
  { hash := sampleScript.hash, filename := "001_a.sql", execution_date := 3, duration := 4 }

def sampleConn : Conn := { db := { table := some [sampleRow] } }

theorem migrate_skips_on_fingerprint_match_witness :
    ∃ (res : MigrationResult) (ops : List DbOp),
      (migrate {} sampleConn { force := true } sampleScript {}).2.2 = MigrateReturn.ok res ∧
      res.skipped = true ∧ res.runtime = 0 ∧
      (migrate {} sampleConn { force := true } sampleScript {}).2.1.db.effects = sampleConn.db.effects ∧
      (migrate {} sampleConn { force := true } sampleScript {}).2.1.trace = sampleConn.trace ++ ops ∧
      DbOp.beginTxn ∉ ops ∧ (∀ sql, DbOp.runSql sql ∉ ops) :=
  migrate_skips_on_fingerprint_match {} sampleConn { force := true } sampleScript {}
    [sampleRow] rfl sampleRow [] (by decide)

/-! ## C4: rename detection -/

/-- C4: when the first ledger record matching the script's fingerprint
carries a different stored filename, `migrate` reports the rename
message and returns a skipped outcome without running any SQL or
opening a transaction; outside preview mode it rewrites the stored
filename (keyed by the fingerprint) through the update operation, while
in preview mode it performs no write at all. -/
theorem migrate_rename_updates_filename
    (self : PgMayflower) (conn : Conn) (options : OptionsJS) (script : SqlScript) (env : Env)
    (rows : List Row) (htable : conn.db.table = some rows)
    (r : Row) (t : List Row)
    (hfind : rows.filter (fun r => r.hash == script.hash) = r :: t)
    (hrn : r.filename ≠ script.name) :
    ∃ ops : List DbOp,
      (migrate self conn options script env).2.2 = MigrateReturn.ok
        { name := script.name, skipped := true, runtime := 0,
          message := "Filename has changed in the database; updating " ++ script.name } ∧
      (migrate self conn options script env).2.1.trace = conn.trace ++ ops ∧
      DbOp.beginTxn ∉ ops ∧ (∀ sql, DbOp.runSql sql ∉ ops) ∧
      (options.preview = true →
        (migrate self conn options script env).2.1.db = conn.db ∧
        ∀ x n h, DbOp.updateFilenameByHash x n h ∉ ops) ∧
      (options.preview = false →
        (migrate self conn options script env).2.1.db.table
            = some (rows.map (fun row =>
                if row.hash == script.hash then { row with filename := script.name } else row)) ∧
        (migrate self conn options script env).2.1.db.effects = conn.db.effects ∧
        DbOp.updateFilenameByHash self.schemaAndTable script.name script.hash ∈ ops) := by
  cases hTE : self.tableExists with
  | false =>
    simp only [migrate, createMigrationsTable_found self conn options rows hTE htable,
      Conn.note, Conn.exec, htable, Option.getD_some, hfind, Bool.not_true, Bool.false_and,
      Bool.false_eq_true, if_false]
    cases hp : options.preview with
    | true =>
      refine ⟨[DbOp.infoSchemaQuery self.schema self.table,
        DbOp.selectByHash self.schemaAndTable script.hash], ?_⟩
      simp [hrn, hp, List.append_assoc, bne, schemaAndTable_markExists]
    | false =>
      refine ⟨[DbOp.infoSchemaQuery self.schema self.table,
        DbOp.selectByHash self.schemaAndTable script.hash,
        DbOp.updateFilenameByHash self.schemaAndTable script.name script.hash], ?_⟩
      simp [hrn, hp, htable, List.append_assoc, bne, schemaAndTable_markExists]
  | true =>
    simp only [migrate, createMigrationsTable_memo self conn options hTE,
      Conn.note, Conn.exec, htable, Option.getD_some, hfind, hTE, Bool.not_true, Bool.false_and,
      Bool.false_eq_true, if_false]
    cases hp : options.preview with
    | true =>
      refine ⟨[DbOp.selectByHash self.schemaAndTable script.hash], ?_⟩
      simp [hrn, hp, List.append_assoc, bne, schemaAndTable_markExists]
    | false =>
      refine ⟨[DbOp.selectByHash self.schemaAndTable script.hash,
        DbOp.updateFilenameByHash self.schemaAndTable script.name script.hash], ?_⟩
      simp [hrn, hp, htable, List.append_assoc, bne, schemaAndTable_markExists]

def renameScript : SqlScript := SqlScript.make "002_new.sql" "select 1;"

theorem migrate_rename_updates_filename_witness :
    ∃ ops : List DbOp,
      (migrate {} sampleConn {} renameScript {}).2.2 = MigrateReturn.ok
        { name := "002_new.sql", skipped := true, runtime := 0,
          message := "Filename has changed in the database; updating " ++ "002_new.sql" } ∧
      (migrate {} sampleConn {} renameScript {}).2.1.trace = sampleConn.trace ++ ops ∧
      DbOp.beginTxn ∉ ops ∧ (∀ sql, DbOp.runSql sql ∉ ops) ∧
      (({} : OptionsJS).preview = true →
        (migrate {} sampleConn {} renameScript {}).2.1.db = sampleConn.db ∧
        ∀ x n h, DbOp.updateFilenameByHash x n h ∉ ops) ∧
      (({} : OptionsJS).preview = false →
        (migrate {} sampleConn {} renameScript {}).2.1.db.table
            = some ([sampleRow].map (fun row =>
                if row.hash == renameScript.hash then { row with filename := "002_new.sql" } else row)) ∧
        (migrate {} sampleConn {} renameScript {}).2.1.db.effects = sampleConn.db.effects ∧
        DbOp.updateFilenameByHash ({} : PgMayflower).schemaAndTable "002_new.sql" renameScript.hash ∈ ops) :=
  migrate_rename_updates_filename {} sampleConn {} renameScript {}
    [sampleRow] rfl sampleRow [] (by decide) (by decide)

/-! ## C2: filename conflict without force -/

/-- C2: when no ledger record matches the script's fingerprint but one
matches its filename and `force` is not set, `migrate` throws the
conflict error naming the filename and the new fingerprint, before any
`BEGIN` and without running any SQL, leaving the database state (ledger
rows included) and the open-transaction state untouched; and the error
propagates out of the batch loop unchanged, with no further script
attempted and no result returned. -/
theorem migrate_conflict_without_force
    (self : PgMayflower) (conn : Conn) (options : OptionsJS) (script : SqlScript) (env : Env)
    (rows : List Row) (htable : conn.db.table = some rows)
    (hnohash : rows.filter (fun r => r.hash == script.hash) = [])
    (r : Row) (t : List Row)
    (hname : rows.filter (fun r => r.filename == script.name) = r :: t)
    (hforce : options.force = false) :
    ∃ ops : List DbOp,
      (migrate self conn options script env).2.2 = MigrateReturn.err
        ("Failed to migrate: " ++ script.name ++ " (Hash: " ++ script.hash
          ++ ") - the file was already migrated in the past, to force migration use options.force") ∧
      (migrate self conn options script env).2.1.db = conn.db ∧
      (migrate self conn options script env).2.1.txnSnapshot = conn.txnSnapshot ∧
      (migrate self conn options script env).2.1.trace = conn.trace ++ ops ∧
      DbOp.beginTxn ∉ ops ∧ (∀ sql, DbOp.runSql sql ∉ ops) ∧
      (∀ (rest : List SqlScript) (envs : List Env),
        runScripts self conn options (script :: rest) (env :: envs)
          = ((migrate self conn options script env).1,
             (migrate self conn options script env).2.1, [],
             some ("Failed to migrate: " ++ script.name ++ " (Hash: " ++ script.hash
               ++ ") - the file was already migrated in the past, to force migration use options.force"))) := by
  cases hTE : self.tableExists with
  | false =>
    simp only [migrate, runScripts, createMigrationsTable_found self conn options rows hTE htable,
      Conn.note, Conn.exec, htable, Option.getD_some, hnohash, hname, Bool.not_true,
      Bool.false_and, Bool.false_eq_true, if_false]
    refine ⟨[DbOp.infoSchemaQuery self.schema self.table,
      DbOp.selectByHash self.schemaAndTable script.hash,
      DbOp.selectByFilename self.schemaAndTable script.name], ?_⟩
    simp [hforce, List.append_assoc, schemaAndTable_markExists]
  | true =>
    simp only [migrate, runScripts, createMigrationsTable_memo self conn options hTE,
      Conn.note, Conn.exec, htable, Option.getD_some, hnohash, hname, hTE, Bool.not_true,
      Bool.false_and, Bool.false_eq_true, if_false]
    refine ⟨[DbOp.selectByHash self.schemaAndTable script.hash,
      DbOp.selectByFilename self.schemaAndTable script.name], ?_⟩
    simp [hforce, List.append_assoc, schemaAndTable_markExists]

def conflictScript : SqlScript := SqlScript.make "001_a.sql" "select 2;"

theorem migrate_conflict_without_force_witness :
    ∃ ops : List DbOp,
      (migrate {} sampleConn {} conflictScript {}).2.2 = MigrateReturn.err
        ("Failed to migrate: " ++ "001_a.sql" ++ " (Hash: " ++ conflictScript.hash
          ++ ") - the file was already migrated in the past, to force migration use options.force") ∧
      (migrate {} sampleConn {} conflictScript {}).2.1.db = sampleConn.db ∧
      (migrate {} sampleConn {} conflictScript {}).2.1.txnSnapshot = sampleConn.txnSnapshot ∧
      (migrate {} sampleConn {} conflictScript {}).2.1.trace = sampleConn.trace ++ ops ∧
      DbOp.beginTxn ∉ ops ∧ (∀ sql, DbOp.runSql sql ∉ ops) ∧
      (∀ (rest : List SqlScript) (envs : List Env),
        runScripts {} sampleConn {} (conflictScript :: rest) (({} : Env) :: envs)
          = ((migrate {} sampleConn {} conflictScript {}).1,
             (migrate {} sampleConn {} conflictScript {}).2.1, [],
             some ("Failed to migrate: " ++ "001_a.sql" ++ " (Hash: " ++ conflictScript.hash
               ++ ") - the file was already migrated in the past, to force migration use options.force"))) :=
  migrate_conflict_without_force {} sampleConn {} conflictScript {}
    [sampleRow] rfl (by decide) sampleRow [] (by decide) rfl

/-! ## C3: preview mode is a pure dry run that still executes SQL -/

/-- C3: with `preview = true`, `migrate` leaves the database state
entirely unchanged on every path — no table creation, no ledger insert
or update, no commit is ever issued — and on the path that applies a
script (no fingerprint match, no unforced filename conflict, the SQL
succeeds) the script's SQL *is* sent on the live connection inside a
transaction that is then rolled back, and the outcome is the normal
non-skipped success result. -/
theorem migrate_preview_is_pure_dry_run
    (self : PgMayflower) (conn : Conn) (options : OptionsJS) (script : SqlScript) (env : Env)
    (hp : options.preview = true) :
    ∃ ops : List DbOp,
      (migrate self conn options script env).2.1.db = conn.db ∧
      (migrate self conn options script env).2.1.trace = conn.trace ++ ops ∧
      DbOp.commit ∉ ops ∧
      (∀ x, DbOp.createTable x ∉ ops) ∧
      (∀ x h d u n, DbOp.insertMigration x h d u n ∉ ops) ∧
      (∀ x h d u n, DbOp.updateMigrationByFilename x h d u n ∉ ops) ∧
      (∀ x n h, DbOp.updateFilenameByHash x n h ∉ ops) ∧
      ((conn.db.table.getD []).filter (fun r => r.hash == script.hash) = [] →
        ((conn.db.table.getD []).filter (fun r => r.filename == script.name) = []
          ∨ options.force = true) →
        env.scriptError = none →
          DbOp.runSql script.sql ∈ ops ∧ DbOp.rollback ∈ ops ∧
          (migrate self conn options script env).2.2
            = MigrateReturn.ok { name := script.name, skipped := false, runtime := env.runtime,
                                 message := "Successfully migrated " ++ script.name }) := by
  cases hTE : self.tableExists with
  | true =>
    simp only [migrate, migrateTry, createMigrationsTable_memo self conn options hTE,
      Conn.note, Conn.exec, hTE, hp, Bool.not_true, Bool.false_and, Bool.false_eq_true, if_false]
    cases hhash : (conn.db.table.getD []).filter (fun r => r.hash == script.hash) with
    | cons r t =>
      by_cases hrn : r.filename = script.name
      · refine ⟨[DbOp.selectByHash self.schemaAndTable script.hash], ?_⟩
        simp [hhash, hrn, hp, List.append_assoc]
      · refine ⟨[DbOp.selectByHash self.schemaAndTable script.hash], ?_⟩
        simp [hhash, hrn, hp, List.append_assoc, bne]
    | nil =>
      cases hname : (conn.db.table.getD []).filter (fun r => r.filename == script.name) with
      | cons r t =>
        cases hforce : options.force with
        | false =>
          refine ⟨[DbOp.selectByHash self.schemaAndTable script.hash,
            DbOp.selectByFilename self.schemaAndTable script.name], ?_⟩
          simp [hhash, hname, hforce, hp, List.append_assoc]
        | true =>
          refine ⟨[DbOp.selectByHash self.schemaAndTable script.hash,
            DbOp.selectByFilename self.schemaAndTable script.name,
            DbOp.beginTxn, DbOp.runSql script.sql, DbOp.rollback], ?_⟩
          cases hse : env.scriptError with
          | some e => simp [hhash, hname, hforce, hse, hp, hTE, List.append_assoc]
          | none => simp [hhash, hname, hforce, hse, hp, hTE, List.append_assoc]
      | nil =>
        refine ⟨[DbOp.selectByHash self.schemaAndTable script.hash,
          DbOp.selectByFilename self.schemaAndTable script.name,
          DbOp.beginTxn, DbOp.runSql script.sql, DbOp.rollback], ?_⟩
        cases hse : env.scriptError with
        | some e => simp [hhash, hname, hse, hp, hTE, List.append_assoc]
        | none => simp [hhash, hname, hse, hp, hTE, List.append_assoc]
  | false =>
    cases htab : conn.db.table with
    | some rows =>
      simp only [migrate, migrateTry, createMigrationsTable_found self conn options rows hTE htab,
        Conn.note, Conn.exec, hp, Bool.not_true, Bool.false_and, Bool.false_eq_true, if_false]
      cases hhash : (conn.db.table.getD []).filter (fun r => r.hash == script.hash) with
      | cons r t =>
        by_cases hrn : r.filename = script.name
        · refine ⟨[DbOp.infoSchemaQuery self.schema self.table,
            DbOp.selectByHash self.schemaAndTable script.hash], ?_⟩
          simp [hhash, hrn, hp, List.append_assoc, schemaAndTable_markExists]
          intro h1 _
          simp only [htab, Option.getD_some] at hhash
          have hr : r ∈ List.filter (fun r => r.hash == script.hash) rows := by
            rw [hhash]; exact List.mem_cons_self r t
          rw [List.mem_filter] at hr
          exact fun _ => ((h1 r hr.1) (by simpa using hr.2)).elim
        · refine ⟨[DbOp.infoSchemaQuery self.schema self.table,
            DbOp.selectByHash self.schemaAndTable script.hash], ?_⟩
          simp [hhash, hrn, hp, List.append_assoc, bne, schemaAndTable_markExists]
          intro h1 _
          simp only [htab, Option.getD_some] at hhash
          have hr : r ∈ List.filter (fun r => r.hash == script.hash) rows := by
            rw [hhash]; exact List.mem_cons_self r t
          rw [List.mem_filter] at hr
          exact fun _ => ((h1 r hr.1) (by simpa using hr.2)).elim
      | nil =>
        cases hname : (conn.db.table.getD []).filter (fun r => r.filename == script.name) with
        | cons r t =>
          cases hforce : options.force with
          | false =>
            refine ⟨[DbOp.infoSchemaQuery self.schema self.table,
              DbOp.selectByHash self.schemaAndTable script.hash,
              DbOp.selectByFilename self.schemaAndTable script.name], ?_⟩
            simp [hhash, hname, hforce, hp, List.append_assoc, schemaAndTable_markExists]
            intro _ h2
            simp only [htab, Option.getD_some] at hname
            have hr : r ∈ List.filter (fun r => r.filename == script.name) rows := by
              rw [hname]; exact List.mem_cons_self r t
            rw [List.mem_filter] at hr
            exact fun _ => ((h2 r hr.1) (by simpa using hr.2)).elim
          | true =>
            refine ⟨[DbOp.infoSchemaQuery self.schema self.table,
              DbOp.selectByHash self.schemaAndTable script.hash,
              DbOp.selectByFilename self.schemaAndTable script.name,
              DbOp.beginTxn, DbOp.runSql script.sql, DbOp.rollback], ?_⟩
            cases hse : env.scriptError with
            | some e =>
              simp [hhash, hname, hforce, hse, hp, List.append_assoc, schemaAndTable_markExists]
            | none =>
              simp [hhash, hname, hforce, hse, hp, List.append_assoc, schemaAndTable_markExists]
        | nil =>
          refine ⟨[DbOp.infoSchemaQuery self.schema self.table,
            DbOp.selectByHash self.schemaAndTable script.hash,
            DbOp.selectByFilename self.schemaAndTable script.name,
            DbOp.beginTxn, DbOp.runSql script.sql, DbOp.rollback], ?_⟩
          cases hse : env.scriptError with
          | some e =>
            simp [hhash, hname, hse, hp, List.append_assoc, schemaAndTable_markExists]
          | none =>
            simp [hhash, hname, hse, hp, List.append_assoc, schemaAndTable_markExists]
    | none =>
      simp only [migrate, migrateTry,
        createMigrationsTable_absent_preview self conn options hTE htab hp,
        Conn.note, Conn.exec, hTE, hp, Bool.not_false, Bool.true_and, if_true]
      refine ⟨[DbOp.infoSchemaQuery self.schema self.table,
        DbOp.beginTxn, DbOp.runSql script.sql, DbOp.rollback], ?_⟩
      cases hse : env.scriptError with
      | some e => simp [htab, hse, hp, hTE, List.append_assoc]
      | none => simp [htab, hse, hp, hTE, List.append_assoc]

theorem migrate_preview_is_pure_dry_run_witness :
    ∃ ops : List DbOp,
      (migrate {} {} { preview := true } sampleScript {}).2.1.db = ({} : Conn).db ∧
      (migrate {} {} { preview := true } sampleScript {}).2.1.trace = ({} : Conn).trace ++ ops ∧
      DbOp.commit ∉ ops ∧
      (∀ x, DbOp.createTable x ∉ ops) ∧
      (∀ x h d u n, DbOp.insertMigration x h d u n ∉ ops) ∧
      (∀ x h d u n, DbOp.updateMigrationByFilename x h d u n ∉ ops) ∧
      (∀ x n h, DbOp.updateFilenameByHash x n h ∉ ops) ∧
      ((({} : Conn).db.table.getD []).filter (fun r => r.hash == sampleScript.hash) = [] →
        ((({} : Conn).db.table.getD []).filter (fun r => r.filename == sampleScript.name) = []
          ∨ ({ preview := true } : OptionsJS).force = true) →
        ({} : Env).scriptError = none →
          DbOp.runSql sampleScript.sql ∈ ops ∧ DbOp.rollback ∈ ops ∧
          (migrate {} {} { preview := true } sampleScript {}).2.2
            = MigrateReturn.ok { name := sampleScript.name, skipped := false,
                                 runtime := ({} : Env).runtime,
                                 message := "Successfully migrated " ++ sampleScript.name }) :=
  migrate_preview_is_pure_dry_run {} {} { preview := true } sampleScript {} rfl

/-! ## C8: failure while applying rolls back, propagates, aborts, closes -/

/-- C8: on the apply path, if the script's SQL fails — or the SQL
succeeds and the ledger write fails — `migrate` rolls the transaction
back (the database state is exactly as before the call, and no
transaction is left open), rethrows the error message unchanged, and
never commits; the batch loop stops at the failed script, returning the
same error with no results, and `migrateAll` surfaces the same error
while still closing the connection. -/
theorem migrate_failure_rolls_back_and_aborts
    (self : PgMayflower) (conn : Conn) (options : OptionsJS) (script : SqlScript) (env : Env)
    (rows nameRows : List Row) (e : String)
    (htable : conn.db.table = some rows)
    (hnohash : rows.filter (fun r => r.hash == script.hash) = [])
    (hnm : rows.filter (fun r => r.filename == script.name) = nameRows)
    (hguard : nameRows = [] ∨ options.force = true)
    (hfail : env.scriptError = some e ∨
      (env.scriptError = none ∧ options.preview = false ∧ env.ledgerError = some e)) :
    ∃ ops : List DbOp,
      (migrate self conn options script env).2.2 = MigrateReturn.err e ∧
      (migrate self conn options script env).2.1.db = conn.db ∧
      (migrate self conn options script env).2.1.txnSnapshot = none ∧
      (migrate self conn options script env).2.1.trace = conn.trace ++ ops ∧
      DbOp.beginTxn ∈ ops ∧ DbOp.rollback ∈ ops ∧ DbOp.commit ∉ ops ∧
      (∀ (rest : List SqlScript) (envs : List Env),
        runScripts self conn options (script :: rest) (env :: envs)
          = ((migrate self conn options script env).1,
             (migrate self conn options script env).2.1, [], some e)) ∧
      (∀ (fs : List (String × String)) (rest : List SqlScript) (envs : List Env) (b : Bool),
        getAllScripts fs = script :: rest →
        options.output = some b →
        (migrateAll self fs conn (some options) (env :: envs)).outcome = BatchResult.err e ∧
        (migrateAll self fs conn (some options) (env :: envs)).conn.closed = true) := by
  have hout : ∀ (b : Bool), options.output = some b →
      defaultedOptions (some options) = options := by
    intro b hb
    simp [defaultedOptions, hb]
  cases hTE : self.tableExists with
  | false =>
    simp only [migrate, migrateTry, runScripts,
      createMigrationsTable_found self conn options rows hTE htable,
      Conn.note, Conn.exec, htable, Option.getD_some, hnohash, hnm, hTE, Bool.not_true,
      Bool.false_and, Bool.false_eq_true, if_false]
    rcases hguard with hg | hg
    · rcases hfail with hf | ⟨hf1, hf2, hf3⟩
      refine ⟨[
          DbOp.infoSchemaQuery self.schema self.table,
          DbOp.selectByHash self.schemaAndTable script.hash,
          DbOp.selectByFilename self.schemaAndTable script.name,
          DbOp.beginTxn,
          DbOp.runSql script.sql,
          DbOp.rollback], ?_, ?_, ?_, ?_, ?_, ?_, ?_, ?_, ?_⟩
      · simp [hg, hf, hTE]
      · simp [hg, hf, hTE]
      · simp [hg, hf, hTE]
      · simp [hg, hf, hTE, List.append_assoc, schemaAndTable_markExists]
      · simp
      · simp
      · simp
      · intro rest envs
        simp [hg, hf, hTE, List.append_assoc, schemaAndTable_markExists]
      · intro fs rest envs b hfs hob
        simp [hfs, hout b hob, migrateAll, runScripts, migrate, migrateTry, createMigrationsTable_found self conn options rows hTE htable,
          Conn.note, Conn.exec, htable, hnohash, hnm, hg, hf, hTE, hTE]
      refine ⟨[
          DbOp.infoSchemaQuery self.schema self.table,
          DbOp.selectByHash self.schemaAndTable script.hash,
          DbOp.selectByFilename self.schemaAndTable script.name,
          DbOp.beginTxn,
          DbOp.runSql script.sql,
          DbOp.insertMigration self.schemaAndTable script.hash env.now env.runtime script.name,
          DbOp.rollback], ?_, ?_, ?_, ?_, ?_, ?_, ?_, ?_, ?_⟩
      · simp [hg, hf1, hf2, hf3, hTE]
      · simp [hg, hf1, hf2, hf3, hTE]
      · simp [hg, hf1, hf2, hf3, hTE]
      · simp [hg, hf1, hf2, hf3, hTE, List.append_assoc, schemaAndTable_markExists]
      · simp
      · simp
      · simp
      · intro rest envs
        simp [hg, hf1, hf2, hf3, hTE, List.append_assoc, schemaAndTable_markExists]
      · intro fs rest envs b hfs hob
        simp [hfs, hout b hob, migrateAll, runScripts, migrate, migrateTry, createMigrationsTable_found self conn options rows hTE htable,
          Conn.note, Conn.exec, htable, hnohash, hnm, hg, hf1, hf2, hf3, hTE, hTE]
    · cases hnr : nameRows with
      | nil =>
        rcases hfail with hf | ⟨hf1, hf2, hf3⟩
        refine ⟨[
            DbOp.infoSchemaQuery self.schema self.table,
            DbOp.selectByHash self.schemaAndTable script.hash,
            DbOp.selectByFilename self.schemaAndTable script.name,
            DbOp.beginTxn,
            DbOp.runSql script.sql,
            DbOp.rollback], ?_, ?_, ?_, ?_, ?_, ?_, ?_, ?_, ?_⟩
        · simp [hnr, hf, hTE]
        · simp [hnr, hf, hTE]
        · simp [hnr, hf, hTE]
        · simp [hnr, hf, hTE, List.append_assoc, schemaAndTable_markExists]
        · simp
        · simp
        · simp
        · intro rest envs
          simp [hnr, hf, hTE, List.append_assoc, schemaAndTable_markExists]
        · intro fs rest envs b hfs hob
          simp [hfs, hout b hob, migrateAll, runScripts, migrate, migrateTry, createMigrationsTable_found self conn options rows hTE htable,
            Conn.note, Conn.exec, htable, hnohash, hnm, hnr, hf, hTE, hTE]
        refine ⟨[
            DbOp.infoSchemaQuery self.schema self.table,
            DbOp.selectByHash self.schemaAndTable script.hash,
            DbOp.selectByFilename self.schemaAndTable script.name,
            DbOp.beginTxn,
            DbOp.runSql script.sql,
            DbOp.insertMigration self.schemaAndTable script.hash env.now env.runtime script.name,
            DbOp.rollback], ?_, ?_, ?_, ?_, ?_, ?_, ?_, ?_, ?_⟩
        · simp [hnr, hf1, hf2, hf3, hTE]
        · simp [hnr, hf1, hf2, hf3, hTE]
        · simp [hnr, hf1, hf2, hf3, hTE]
        · simp [hnr, hf1, hf2, hf3, hTE, List.append_assoc, schemaAndTable_markExists]
        · simp
        · simp
        · simp
        · intro rest envs
          simp [hnr, hf1, hf2, hf3, hTE, List.append_assoc, schemaAndTable_markExists]
        · intro fs rest envs b hfs hob
          simp [hfs, hout b hob, migrateAll, runScripts, migrate, migrateTry, createMigrationsTable_found self conn options rows hTE htable,
            Conn.note, Conn.exec, htable, hnohash, hnm, hnr, hf1, hf2, hf3, hTE, hTE]
      | cons nr nt =>
        rcases hfail with hf | ⟨hf1, hf2, hf3⟩
        refine ⟨[
            DbOp.infoSchemaQuery self.schema self.table,
            DbOp.selectByHash self.schemaAndTable script.hash,
            DbOp.selectByFilename self.schemaAndTable script.name,
            DbOp.beginTxn,
            DbOp.runSql script.sql,
            DbOp.rollback], ?_, ?_, ?_, ?_, ?_, ?_, ?_, ?_, ?_⟩
        · simp [hnr, hg, hf, hTE]
        · simp [hnr, hg, hf, hTE]
        · simp [hnr, hg, hf, hTE]
        · simp [hnr, hg, hf, hTE, List.append_assoc, schemaAndTable_markExists]
        · simp
        · simp
        · simp
        · intro rest envs
          simp [hnr, hg, hf, hTE, List.append_assoc, schemaAndTable_markExists]
        · intro fs rest envs b hfs hob
          simp [hfs, hout b hob, migrateAll, runScripts, migrate, migrateTry, createMigrationsTable_found self conn options rows hTE htable,
            Conn.note, Conn.exec, htable, hnohash, hnm, hnr, hg, hf, hTE, hTE]
        refine ⟨[
            DbOp.infoSchemaQuery self.schema self.table,
            DbOp.selectByHash self.schemaAndTable script.hash,
            DbOp.selectByFilename self.schemaAndTable script.name,
            DbOp.beginTxn,
            DbOp.runSql script.sql,
            DbOp.updateMigrationByFilename self.schemaAndTable script.hash env.now env.runtime script.name,
            DbOp.rollback], ?_, ?_, ?_, ?_, ?_, ?_, ?_, ?_, ?_⟩
        · simp [hnr, hg, hf1, hf2, hf3, hTE]
        · simp [hnr, hg, hf1, hf2, hf3, hTE]
        · simp [hnr, hg, hf1, hf2, hf3, hTE]
        · simp [hnr, hg, hf1, hf2, hf3, hTE, List.append_assoc, schemaAndTable_markExists]
        · simp
        · simp
        · simp
        · intro rest envs
          simp [hnr, hg, hf1, hf2, hf3, hTE, List.append_assoc, schemaAndTable_markExists]
        · intro fs rest envs b hfs hob
          simp [hfs, hout b hob, migrateAll, runScripts, migrate, migrateTry, createMigrationsTable_found self conn options rows hTE htable,
            Conn.note, Conn.exec, htable, hnohash, hnm, hnr, hg, hf1, hf2, hf3, hTE, hTE]
  | true =>
    simp only [migrate, migrateTry, runScripts,
      createMigrationsTable_memo self conn options hTE,
      Conn.note, Conn.exec, htable, Option.getD_some, hnohash, hnm, hTE, Bool.not_true,
      Bool.false_and, Bool.false_eq_true, if_false]
    rcases hguard with hg | hg
    · rcases hfail with hf | ⟨hf1, hf2, hf3⟩
      refine ⟨[
          DbOp.selectByHash self.schemaAndTable script.hash,
          DbOp.selectByFilename self.schemaAndTable script.name,
          DbOp.beginTxn,
          DbOp.runSql script.sql,
          DbOp.rollback], ?_, ?_, ?_, ?_, ?_, ?_, ?_, ?_, ?_⟩
      · simp [hg, hf, hTE]
      · simp [hg, hf, hTE]
      · simp [hg, hf, hTE]
      · simp [hg, hf, hTE, List.append_assoc, schemaAndTable_markExists]
      · simp
      · simp
      · simp
      · intro rest envs
        simp [hg, hf, hTE, List.append_assoc, schemaAndTable_markExists]
      · intro fs rest envs b hfs hob
        simp [hfs, hout b hob, migrateAll, runScripts, migrate, migrateTry, createMigrationsTable_memo self conn options hTE,
          Conn.note, Conn.exec, htable, hnohash, hnm, hg, hf, hTE, hTE]
      refine ⟨[
          DbOp.selectByHash self.schemaAndTable script.hash,
          DbOp.selectByFilename self.schemaAndTable script.name,
          DbOp.beginTxn,
          DbOp.runSql script.sql,
          DbOp.insertMigration self.schemaAndTable script.hash env.now env.runtime script.name,
          DbOp.rollback], ?_, ?_, ?_, ?_, ?_, ?_, ?_, ?_, ?_⟩
      · simp [hg, hf1, hf2, hf3, hTE]
      · simp [hg, hf1, hf2, hf3, hTE]
      · simp [hg, hf1, hf2, hf3, hTE]
      · simp [hg, hf1, hf2, hf3, hTE, List.append_assoc, schemaAndTable_markExists]
      · simp
      · simp
      · simp
      · intro rest envs
        simp [hg, hf1, hf2, hf3, hTE, List.append_assoc, schemaAndTable_markExists]
      · intro fs rest envs b hfs hob
        simp [hfs, hout b hob, migrateAll, runScripts, migrate, migrateTry, createMigrationsTable_memo self conn options hTE,
          Conn.note, Conn.exec, htable, hnohash, hnm, hg, hf1, hf2, hf3, hTE, hTE]
    · cases hnr : nameRows with
      | nil =>
        rcases hfail with hf | ⟨hf1, hf2, hf3⟩
        refine ⟨[
            DbOp.selectByHash self.schemaAndTable script.hash,
            DbOp.selectByFilename self.schemaAndTable script.name,
            DbOp.beginTxn,
            DbOp.runSql script.sql,
            DbOp.rollback], ?_, ?_, ?_, ?_, ?_, ?_, ?_, ?_, ?_⟩
        · simp [hnr, hf, hTE]
        · simp [hnr, hf, hTE]
        · simp [hnr, hf, hTE]
        · simp [hnr, hf, hTE, List.append_assoc, schemaAndTable_markExists]
        · simp
        · simp
        · simp
        · intro rest envs
          simp [hnr, hf, hTE, List.append_assoc, schemaAndTable_markExists]
        · intro fs rest envs b hfs hob
          simp [hfs, hout b hob, migrateAll, runScripts, migrate, migrateTry, createMigrationsTable_memo self conn options hTE,
            Conn.note, Conn.exec, htable, hnohash, hnm, hnr, hf, hTE, hTE]
        refine ⟨[
            DbOp.selectByHash self.schemaAndTable script.hash,
            DbOp.selectByFilename self.schemaAndTable script.name,
            DbOp.beginTxn,
            DbOp.runSql script.sql,
            DbOp.insertMigration self.schemaAndTable script.hash env.now env.runtime script.name,
            DbOp.rollback], ?_, ?_, ?_, ?_, ?_, ?_, ?_, ?_, ?_⟩
        · simp [hnr, hf1, hf2, hf3, hTE]
        · simp [hnr, hf1, hf2, hf3, hTE]
        · simp [hnr, hf1, hf2, hf3, hTE]
        · simp [hnr, hf1, hf2, hf3, hTE, List.append_assoc, schemaAndTable_markExists]
        · simp
        · simp
        · simp
        · intro rest envs
          simp [hnr, hf1, hf2, hf3, hTE, List.append_assoc, schemaAndTable_markExists]
        · intro fs rest envs b hfs hob
          simp [hfs, hout b hob, migrateAll, runScripts, migrate, migrateTry, createMigrationsTable_memo self conn options hTE,
            Conn.note, Conn.exec, htable, hnohash, hnm, hnr, hf1, hf2, hf3, hTE, hTE]
      | cons nr nt =>
        rcases hfail with hf | ⟨hf1, hf2, hf3⟩
        refine ⟨[
            DbOp.selectByHash self.schemaAndTable script.hash,
            DbOp.selectByFilename self.schemaAndTable script.name,
            DbOp.beginTxn,
            DbOp.runSql script.sql,
            DbOp.rollback], ?_, ?_, ?_, ?_, ?_, ?_, ?_, ?_, ?_⟩
        · simp [hnr, hg, hf, hTE]
        · simp [hnr, hg, hf, hTE]
        · simp [hnr, hg, hf, hTE]
        · simp [hnr, hg, hf, hTE, List.append_assoc, schemaAndTable_markExists]
        · simp
        · simp
        · simp
        · intro rest envs
          simp [hnr, hg, hf, hTE, List.append_assoc, schemaAndTable_markExists]
        · intro fs rest envs b hfs hob
          simp [hfs, hout b hob, migrateAll, runScripts, migrate, migrateTry, createMigrationsTable_memo self conn options hTE,
            Conn.note, Conn.exec, htable, hnohash, hnm, hnr, hg, hf, hTE, hTE]
        refine ⟨[
            DbOp.selectByHash self.schemaAndTable script.hash,
            DbOp.selectByFilename self.schemaAndTable script.name,
            DbOp.beginTxn,
            DbOp.runSql script.sql,
            DbOp.updateMigrationByFilename self.schemaAndTable script.hash env.now env.runtime script.name,
            DbOp.rollback], ?_, ?_, ?_, ?_, ?_, ?_, ?_, ?_, ?_⟩
        · simp [hnr, hg, hf1, hf2, hf3, hTE]
        · simp [hnr, hg, hf1, hf2, hf3, hTE]
        · simp [hnr, hg, hf1, hf2, hf3, hTE]
        · simp [hnr, hg, hf1, hf2, hf3, hTE, List.append_assoc, schemaAndTable_markExists]
        · simp
        · simp
        · simp
        · intro rest envs
          simp [hnr, hg, hf1, hf2, hf3, hTE, List.append_assoc, schemaAndTable_markExists]
        · intro fs rest envs b hfs hob
          simp [hfs, hout b hob, migrateAll, runScripts, migrate, migrateTry, createMigrationsTable_memo self conn options hTE,
            Conn.note, Conn.exec, htable, hnohash, hnm, hnr, hg, hf1, hf2, hf3, hTE, hTE]

def failScript : SqlScript := SqlScript.make "002_b.sql" "select 3;"

def failEnv : Env := { scriptError := some "boom" }

theorem migrate_failure_rolls_back_and_aborts_witness :
    ∃ ops : List DbOp,
      (migrate {} sampleConn { output := some true } failScript failEnv).2.2
          = MigrateReturn.err "boom" ∧
      (migrate {} sampleConn { output := some true } failScript failEnv).2.1.db
          = sampleConn.db ∧
      (migrate {} sampleConn { output := some true } failScript failEnv).2.1.txnSnapshot = none ∧
      (migrate {} sampleConn { output := some true } failScript failEnv).2.1.trace
          = sampleConn.trace ++ ops ∧
      DbOp.beginTxn ∈ ops ∧ DbOp.rollback ∈ ops ∧ DbOp.commit ∉ ops ∧
      (∀ (rest : List SqlScript) (envs : List Env),
        runScripts {} sampleConn { output := some true } (failScript :: rest) (failEnv :: envs)
          = ((migrate {} sampleConn { output := some true } failScript failEnv).1,
             (migrate {} sampleConn { output := some true } failScript failEnv).2.1, [],
             some "boom")) ∧
      (∀ (fs : List (String × String)) (rest : List SqlScript) (envs : List Env) (b : Bool),
        getAllScripts fs = failScript :: rest →
        ({ output := some true } : OptionsJS).output = some b →
        (migrateAll {} fs sampleConn (some { output := some true }) (failEnv :: envs)).outcome
            = BatchResult.err "boom" ∧
        (migrateAll {} fs sampleConn (some { output := some true }) (failEnv :: envs)).conn.closed
            = true) :=
  migrate_failure_rolls_back_and_aborts {} sampleConn { output := some true } failScript failEnv
    [sampleRow] [] "boom" rfl (by decide) (by decide) (Or.inl rfl) (Or.inl rfl)

/-! ## C10: duplicate content under two filenames in one batch -/

/-- C10: in a batch containing two scripts with byte-identical content
under different filenames, both scripts share one fingerprint; the first
is applied (its SQL executed once, one ledger row inserted), and the
second takes the fingerprint-match path: it is skipped, its SQL is never
executed (the effect log gains exactly one entry, the first script's),
and outside preview mode the single ledger row for the shared
fingerprint ends up bearing the later script's filename. -/
theorem duplicate_content_later_script_never_executed
    (self : PgMayflower) (conn : Conn) (options : OptionsJS) (n₁ n₂ c : String)
    (env₁ env₂ : Env)
    (hself : self.tableExists = false) (htab : conn.db.table = none)
    (hp : options.preview = false) (hne : n₁ ≠ n₂)
    (hok : env₁.scriptError = none) (hok2 : env₁.ledgerError = none) :
    (SqlScript.make n₁ c).hash = (SqlScript.make n₂ c).hash ∧
    (runScripts self conn options [SqlScript.make n₁ c, SqlScript.make n₂ c] [env₁, env₂]).2.2.2
        = none ∧
    (runScripts self conn options [SqlScript.make n₁ c, SqlScript.make n₂ c] [env₁, env₂]).2.2.1
        = [{ name := n₁, skipped := false, runtime := env₁.runtime,
             message := "Successfully migrated " ++ n₁ },
           { name := n₂, skipped := true, runtime := 0,
             message := "Filename has changed in the database; updating " ++ n₂ }] ∧
    (runScripts self conn options [SqlScript.make n₁ c, SqlScript.make n₂ c] [env₁, env₂]).2.1.db.table
        = some [{ hash := (SqlScript.make n₁ c).hash, filename := n₂,
                  execution_date := env₁.now, duration := env₁.runtime }] ∧
    (runScripts self conn options [SqlScript.make n₁ c, SqlScript.make n₂ c] [env₁, env₂]).2.1.db.effects
        = conn.db.effects ++ [(SqlScript.make n₁ c).sql] := by
  refine ⟨rfl, ?_⟩
  simp [runScripts, migrate, migrateTry, createMigrationsTable, Conn.exec, Conn.note,
    SqlScript.make, hself, htab, hp, hok, hok2, hne, bne]

def dupEnv : Env := { now := 3, runtime := 4 }

theorem duplicate_content_later_script_never_executed_witness :
    (SqlScript.make "001_a.sql" "select 1;").hash = (SqlScript.make "002_b.sql" "select 1;").hash ∧
    (runScripts {} {} {} [SqlScript.make "001_a.sql" "select 1;",
        SqlScript.make "002_b.sql" "select 1;"] [dupEnv, {}]).2.2.2 = none ∧
    (runScripts {} {} {} [SqlScript.make "001_a.sql" "select 1;",
        SqlScript.make "002_b.sql" "select 1;"] [dupEnv, {}]).2.2.1
        = [{ name := "001_a.sql", skipped := false, runtime := dupEnv.runtime,
             message := "Successfully migrated " ++ "001_a.sql" },
           { name := "002_b.sql", skipped := true, runtime := 0,
             message := "Filename has changed in the database; updating " ++ "002_b.sql" }] ∧
    (runScripts {} {} {} [SqlScript.make "001_a.sql" "select 1;",
        SqlScript.make "002_b.sql" "select 1;"] [dupEnv, {}]).2.1.db.table
        = some [{ hash := (SqlScript.make "001_a.sql" "select 1;").hash, filename := "002_b.sql",
                  execution_date := dupEnv.now, duration := dupEnv.runtime }] ∧
    (runScripts {} {} {} [SqlScript.make "001_a.sql" "select 1;",
        SqlScript.make "002_b.sql" "select 1;"] [dupEnv, {}]).2.1.db.effects
        = ({} : Conn).db.effects ++ [(SqlScript.make "001_a.sql" "select 1;").sql] :=
  duplicate_content_later_script_never_executed {} {} {} "001_a.sql" "002_b.sql" "select 1;"
    dupEnv {} rfl rfl rfl (by decide) rfl rfl

end Mayflower
